import Mathlib

/-!
Shallow embedding of the vcf-isec repository (src/vcf_isec/{parser,isec,cli,errors}.py).

Paths are strings; the filesystem is an association list from path to entry,
where a file entry carries the parsed variant records of the file (header and
byte-level representation are abstracted).  Interactive confirmation answers and
external-toolkit call outcomes are supplied by oracles inside the state, and the
run records an event trace (prompts shown, files written, removed, directories
created) so that temporal properties about prompting and overwriting can be
stated.  Exceptions are modelled by an explicit error type threaded with
`Except`.
-/

/-- One parsed variant record, mirroring the `Variant` dataclass of
`parser.py` (fields rid, chrom, contig, pos, start, stop, rlen, qual, id,
ref, alleles, alts). -/
structure Variant where
  rid : Int
  chrom : String
  contig : String
  pos : Int
  start : Int
  stop : Int
  rlen : Int
  qual : Option Int
  id : Option String
  ref : Option String
  alleles : Option (List String)
  alts : Option (List String)
deriving DecidableEq

/-- A filesystem entry: a regular file holding parsed variant records, or a
directory. -/
inductive Entry where
  | file (recs : List Variant)
  | dir
deriving DecidableEq

/-- The filesystem: an association list from path to entry.  Earlier entries
shadow later ones with the same path. -/
structure FS where
  entries : List (String × Entry)
deriving DecidableEq

def fsLookupList (p : String) : List (String × Entry) → Option Entry
  | [] => none
  | (q, e) :: rest => if q = p then some e else fsLookupList p rest

def FS.lookupEntry (fs : FS) (p : String) : Option Entry :=
  fsLookupList p fs.entries

def FS.existsPath (fs : FS) (p : String) : Bool :=
  (fs.lookupEntry p).isSome

def FS.isFile (fs : FS) (p : String) : Bool :=
  match fs.lookupEntry p with
  | some (.file _) => true
  | _ => false

def FS.isDir (fs : FS) (p : String) : Bool :=
  match fs.lookupEntry p with
  | some .dir => true
  | _ => false

def FS.readRecs (fs : FS) (p : String) : Option (List Variant) :=
  match fs.lookupEntry p with
  | some (.file recs) => some recs
  | _ => none

/-- Create or overwrite an entry. -/
def FS.setEntry (fs : FS) (p : String) (e : Entry) : FS :=
  ⟨(p, e) :: fs.entries.filter (fun q => q.1 ≠ p)⟩

/-- Remove a single path. -/
def FS.removePath (fs : FS) (p : String) : FS :=
  ⟨fs.entries.filter (fun q => q.1 ≠ p)⟩

def charsStartWith : List Char → List Char → Bool
  | [], _ => true
  | _ :: _, [] => false
  | c :: cs, d :: ds => if c = d then charsStartWith cs ds else false

/-- `strStartsWith s pre` is true when `pre` is an initial segment of `s`. -/
def strStartsWith (s pre : String) : Bool :=
  charsStartWith pre.toList s.toList

/-- Remove a directory tree: the path itself and everything strictly below it
(`shutil.rmtree`). -/
def FS.removeTree (fs : FS) (p : String) : FS :=
  ⟨fs.entries.filter (fun q => ¬ (q.1 = p ∨ strStartsWith q.1 (p ++ "/") = true))⟩

/-- Logging levels used by `errors.py`. -/
inductive LogLevel where
  | debug
  | error
  | critical
deriving DecidableEq

structure LogRecord where
  level : LogLevel
  message : String
deriving DecidableEq

/-- Observable events of a run: confirmation prompts shown (with the answer
given), file writes (recording whether the target already existed, i.e. whether
the write overwrote something), removals of paths or trees, and directory
creations. -/
inductive Event where
  | prompt (message : String) (answer : Bool)
  | write (path : String) (existedBefore : Bool)
  | remove (path : String)
  | mkdir (path : String)
deriving DecidableEq

def Event.isPromptEvent : Event → Bool
  | .prompt _ _ => true
  | _ => false

def Event.isOverwriteEvent : Event → Bool
  | .write _ existedBefore => existedBefore
  | _ => false

/-- Outcome of one external-toolkit invocation, supplied by an oracle:
success, a `SamtoolsError`, or an `OSError`. -/
inductive ToolkitOutcome where
  | ok
  | samtools
  | os
deriving DecidableEq

/-- The exception types a run can raise.  `attributeError` models Python's
`AttributeError`; `abortError` models `click.Abort` (raised by
`click.confirm(..., abort=True)` on decline); `samtoolsError` models
`pysam.utils.SamtoolsError`. -/
inductive Exc where
  | fileFormatError (filename : String)
  | intersectError (message : String)
  | runtimeError (message : String)
  | attributeError
  | samtoolsError
  | osError (filename : String)
  | abortError
  | fileNotFoundError (filename : String)
  | keyboardInterrupt
deriving DecidableEq

/-- The state threaded through a run: the filesystem, the oracle of answers to
confirmation prompts, the oracle of toolkit-call outcomes, and the event trace
accumulated so far. -/
structure St where
  fs : FS
  answers : List Bool
  toolkit : List ToolkitOutcome
  events : List Event
deriving DecidableEq

def splitOnChar (c : Char) : List Char → List (List Char)
  | [] => [[]]
  | x :: xs =>
    match splitOnChar c xs with
    | [] => [[]]
    | g :: gs => if x = c then [] :: g :: gs else (x :: g) :: gs

def strSplitOnChar (c : Char) (s : String) : List String :=
  (splitOnChar c s.toList).map String.mk

/-- The components of a path (empty components dropped). -/
def pathParts (p : String) : List String :=
  (strSplitOnChar '/' p).filter (fun s => s ≠ "")

/-- `Path.name`: the final component of a path. -/
def pathName (p : String) : String :=
  (pathParts p).getLastD ""

/-- `Path.parent`: all but the final component, `"."` when there is none. -/
def pathParent (p : String) : String :=
  match (pathParts p).dropLast with
  | [] => "."
  | x :: xs => xs.foldl (fun acc s => acc ++ "/" ++ s) x

/-- `Path.suffix`: the final `"."`-separated piece of the name, with its dot;
empty when the name has no dot past its first character. -/
def pathSuffix (p : String) : String :=
  match splitOnChar '.' (pathName p).toList with
  | [] => ""
  | g :: gs =>
    if gs = [] then ""
    else if g = [] ∧ gs.length = 1 then ""
    else "." ++ String.mk (gs.getLastD [])

def strDropRight (s : String) (k : Nat) : String :=
  String.mk (s.toList.take (s.toList.length - k))

/-- `Path.stem`: the name without its suffix. -/
def pathStem (p : String) : String :=
  strDropRight (pathName p) (pathSuffix p).length

/-- `Path.with_suffix`: replace the suffix of a path. -/
def withSuffix (p s : String) : String :=
  strDropRight p (pathSuffix p).length ++ s

/-- `Path.with_stem`: replace the name's stem, keeping the suffix. -/
def withStem (p newStem : String) : String :=
  strDropRight p (pathName p).length ++ newStem ++ pathSuffix p

def replaceChars (pat rep : List Char) : Nat → List Char → List Char
  | 0, s => s
  | _ + 1, [] => []
  | fuel + 1, x :: xs =>
    if pat ≠ [] ∧ charsStartWith pat (x :: xs) = true then
      rep ++ replaceChars pat rep fuel (List.drop (pat.length - 1) xs)
    else
      x :: replaceChars pat rep fuel xs

/-- `str.replace`: replace every occurrence of `pat` by `rep`. -/
def strReplace (s pat rep : String) : String :=
  String.mk (replaceChars pat.toList rep.toList s.toList.length s.toList)

/-- `Path /` join. -/
def joinPath (a b : String) : String :=
  a ++ "/" ++ b

/-- Python `str(x)` on an optional path: `None` prints as `"None"`. -/
def pyStr : Option String → String
  | none => "None"
  | some s => s

/-- `click.confirm(message, default=d)`: consume the next oracle answer (the
default when the oracle is exhausted), record the prompt event, return the
answer. -/
def confirm (message : String) (defaultAnswer : Bool) (st : St) : Bool × St :=
  let a := (st.answers.head?).getD defaultAnswer
  (a, { st with
          answers := st.answers.tail,
          events := st.events ++ [.prompt message a] })

/-- `click.confirm(message, default=d, abort=True)`: as `confirm`, but a
declined prompt raises `click.Abort`. -/
def confirmAbort (message : String) (defaultAnswer : Bool) (st : St) : Except Exc St :=
  match confirm message defaultAnswer st with
  | (true, st') => .ok st'
  | (false, _) => .error .abortError

/-- Consume the next toolkit-call outcome from the oracle (success when
exhausted). -/
def takeOutcome (st : St) : ToolkitOutcome × St :=
  ((st.toolkit.head?).getD .ok, { st with toolkit := st.toolkit.tail })

/-- Write a file, recording whether the write overwrote an existing entry. -/
def writeFile (p : String) (recs : List Variant) (st : St) : St :=
  { st with
      fs := st.fs.setEntry p (.file recs),
      events := st.events ++ [.write p (st.fs.existsPath p)] }

/-- `shutil.copy`: raises `FileNotFoundError` when the source is missing. -/
def copyFile (src dst : String) (st : St) : Except Exc St :=
  match st.fs.readRecs src with
  | none => .error (.fileNotFoundError src)
  | some recs => .ok (writeFile dst recs st)

def resultOutput {α : Type} : Except Exc (α × St) → Option α
  | .ok (x, _) => some x
  | .error _ => none

def resultFS {α : Type} : Except Exc (α × St) → Option FS
  | .ok (_, st) => some st.fs
  | .error _ => none

def resultEvents {α : Type} : Except Exc (α × St) → Option (List Event)
  | .ok (_, st) => some st.events
  | .error _ => none

/-- Records of `a` that do not occur in `b` (the private records). -/
def recsPrivate (a b : List Variant) : List Variant :=
  a.filter (fun x => !(b.contains x))

/-- Records of `a` that also occur in `b` (the shared records, from `a`'s
side). -/
def recsShared (a b : List Variant) : List Variant :=
  a.filter (fun x => b.contains x)

/-- Modelled from the spec: `bcftools merge` of two single-sample VCFs with
`--force-samples` combines records at the same site into one output record, so
the merged record set is the union of the two inputs keyed by record identity
(first file's order first). -/
def mergeRecs (x y : List Variant) : List Variant :=
  x ++ y.filter (fun v => !(x.contains v))

/-- `bcftools.sort(-Oz, -o dst, src)`.  The external tool is an opaque
collaborator: its outcome comes from the oracle; on success the destination
holds the source's records (ordering by position is abstracted). -/
def bcftoolsSort (src dst : String) (st : St) : Except Exc St :=
  match takeOutcome st with
  | (.samtools, _) => .error .samtoolsError
  | (.os, _) => .error (.osError src)
  | (.ok, st') =>
    match st'.fs.readRecs src with
    | none => .error (.osError src)
    | some recs => .ok (writeFile dst recs st')

/-- Modelled from the spec: `bcftools isec A B --prefix=dir -w 1,2` writes four
intermediates into `dir`: `0000.vcf` records private to `A`, `0001.vcf` records
private to `B`, `0002.vcf` records of `A` shared with `B`, `0003.vcf` records
of `B` shared with `A` (the external toolkit is not part of this repository;
these are its documented semantics, per the spec's description of the four
intermediate files). -/
def bcftoolsIsec (v1 v2 isecDir : String) (st : St) : Except Exc St :=
  match takeOutcome st with
  | (.samtools, _) => .error .samtoolsError
  | (.os, _) => .error (.osError v1)
  | (.ok, st') =>
    match st'.fs.readRecs v1, st'.fs.readRecs v2 with
    | some a, some b =>
      let st1 := writeFile (joinPath isecDir "0000.vcf") (recsPrivate a b) st'
      let st2 := writeFile (joinPath isecDir "0001.vcf") (recsPrivate b a) st1
      let st3 := writeFile (joinPath isecDir "0002.vcf") (recsShared a b) st2
      .ok (writeFile (joinPath isecDir "0003.vcf") (recsShared b a) st3)
    | none, _ => .error (.osError v1)
    | _, none => .error (.osError v2)

/-- `bcftools.view(src, -Oz, -o dst, --write-index)`: recompress `src` to
`dst` and write an accompanying index. -/
def bcftoolsView (src dst : String) (st : St) : Except Exc St :=
  match takeOutcome st with
  | (.samtools, _) => .error .samtoolsError
  | (.os, _) => .error (.osError src)
  | (.ok, st') =>
    match st'.fs.readRecs src with
    | none => .error (.osError src)
    | some recs => .ok (writeFile (dst ++ ".csi") [] (writeFile dst recs st'))

/-- `bcftools.merge(s1, s2, -Ov, -o dst, --force-samples)`. -/
def bcftoolsMerge (s1 s2 dst : String) (st : St) : Except Exc St :=
  match takeOutcome st with
  | (.samtools, _) => .error .samtoolsError
  | (.os, _) => .error (.osError s1)
  | (.ok, st') =>
    match st'.fs.readRecs s1, st'.fs.readRecs s2 with
    | some x, some y => .ok (writeFile dst (mergeRecs x y) st')
    | none, _ => .error (.osError s1)
    | _, none => .error (.osError s2)

/-- `pysam.tabix_index(gz, force=True, preset=vcf, index=indexPath,
keep_original=True)`: write the index file at `indexPath`, overwriting any
existing entry (`force=True`), leaving the compressed file in place. -/
def tabixIndex (gz indexPath : String) (st : St) : Except Exc St :=
  match takeOutcome st with
  | (.samtools, _) => .error .samtoolsError
  | (.os, _) => .error (.osError gz)
  | (.ok, st') =>
    match st'.fs.readRecs gz with
    | none => .error (.osError gz)
    | some _ => .ok (writeFile indexPath [] st')

/-- The builder of `parser.py`'s `VCFPreparer` (field `prefix` is named
`prefixDir` here). -/
structure VCFPreparer where
  provided_path : String
  prefixDir : String
  gz_path : Option String
  gz_is_new : Bool
  tbi_path : Option String
deriving DecidableEq

/-- `VCFPreparer.__init__(path, prefix)`. -/
def VCFPreparer.init (path prefixDir : String) : VCFPreparer :=
  ⟨path, prefixDir, none, false, none⟩

/-- The tail of `VCFPreparer.compress` after the prompting branches: fall back
to the prefix directory when no target was chosen, then run `bcftools.sort`
into the target and mark the compressed file as new. -/
def VCFPreparer.compressFinish (p : VCFPreparer) (st : St) :
    Except Exc (VCFPreparer × St) :=
  let gzTarget :=
    match p.gz_path with
    | some g => g
    | none => joinPath p.prefixDir (pathName (withSuffix p.provided_path ".vcf.gz"))
  match bcftoolsSort p.provided_path gzTarget st with
  | .error e => .error e
  | .ok st' => .ok ({ p with gz_path := some gzTarget, gz_is_new := true }, st')

/-- `VCFPreparer.compress` (parser.py lines 58-94): prompt about an existing
BGZipped file (use it / overwrite it) or about creating one; on "use it"
return without sorting; otherwise sort into the chosen target (the prefix
directory when every prompt was declined). -/
def VCFPreparer.compress (p : VCFPreparer) (st : St) :
    Except Exc (VCFPreparer × St) :=
  let gz := withSuffix p.provided_path ".vcf.gz"
  if st.fs.existsPath gz then
    match confirm ("BGZipped VCF found at " ++ gz ++ ". Use it?") false st with
    | (true, st1) => .ok ({ p with gz_path := some gz }, st1)
    | (false, st1) =>
      match confirm ("Overwrite " ++ gz ++ "?") false st1 with
      | (true, st2) => VCFPreparer.compressFinish { p with gz_path := some gz } st2
      | (false, st2) => VCFPreparer.compressFinish p st2
  else
    match confirm ("Create BGZipped VCF at " ++ gz ++ "?") false st with
    | (true, st1) => VCFPreparer.compressFinish { p with gz_path := some gz } st1
    | (false, st1) => VCFPreparer.compressFinish p st1

/-- The tail of `VCFPreparer.index`: `pysam.tabix_index(str(gz_path),
force=True, preset="vcf", index=str(tbi_path), keep_original=True)`.  Note
`str(self.tbi_path)` is `"None"` when `tbi_path` was never set. -/
def VCFPreparer.finishIndex (p : VCFPreparer) (gz : String) (st : St) :
    Except Exc (VCFPreparer × St) :=
  match tabixIndex gz (pyStr p.tbi_path) st with
  | .error e => .error e
  | .ok st' => .ok (p, st')

/-- `VCFPreparer.index` (parser.py lines 96-155).  When `gz_path` is unset,
the source builds a `RuntimeError` message that evaluates
`self.gz_path.__qualname__` on `None`, so an `AttributeError` is raised while
constructing the message.  A `Path` is always truthy in Python, so the
`self.prefix and` guard reduces to the parent comparison. -/
def VCFPreparer.index (p : VCFPreparer) (st : St) :
    Except Exc (VCFPreparer × St) :=
  match p.gz_path with
  | none => .error .attributeError
  | some gz =>
    let tbi := gz ++ ".tbi"
    if p.prefixDir = pathParent tbi then
      VCFPreparer.finishIndex { p with tbi_path := some tbi } gz st
    else if p.gz_is_new = false then
      if st.fs.existsPath tbi then
        match confirm ("Tabix index found at \x7btbi_path\x7d. Use it?") false st with
        | (true, st1) => .ok ({ p with tbi_path := some tbi }, st1)
        | (false, st1) => VCFPreparer.finishIndex p gz st1
      else
        match confirm ("Create tabix index at " ++ tbi ++ "?") false st with
        | (true, st1) => VCFPreparer.finishIndex { p with tbi_path := some tbi } gz st1
        | (false, st1) =>
          VCFPreparer.finishIndex
            { p with tbi_path := some (joinPath (pathName p.prefixDir) (pathName gz ++ ".tbi")) }
            gz st1
    else
      if st.fs.existsPath tbi then
        match confirm ("Tabix index found at " ++ tbi ++ ". Overwrite it?") false st with
        | (true, st1) => .ok ({ p with tbi_path := some tbi }, st1)
        | (false, st1) =>
          VCFPreparer.finishIndex
            { p with tbi_path := some (joinPath (pathName p.prefixDir) (pathName gz ++ ".tbi")) }
            gz st1
      else
        match confirm ("Create tabix index at " ++ tbi ++ "?") false st with
        | (true, st1) => VCFPreparer.finishIndex { p with tbi_path := some tbi } gz st1
        | (false, st1) =>
          VCFPreparer.finishIndex
            { p with tbi_path := some (joinPath (pathName p.prefixDir) (pathName gz ++ ".tbi")) }
            gz st1

/-- `VCFPreparer.prepare` (parser.py lines 45-56): compress when the suffix is
`.vcf`, pass through when `.gz`, then index, then fail with `RuntimeError`
when no compressed path was set. -/
def VCFPreparer.prepare (p : VCFPreparer) (st : St) : Except Exc (String × St) :=
  let step1 : Except Exc (VCFPreparer × St) :=
    if pathSuffix p.provided_path = ".vcf" then p.compress st
    else if pathSuffix p.provided_path = ".gz" then
      .ok ({ p with gz_path := some p.provided_path }, st)
    else .ok (p, st)
  match step1 with
  | .error e => .error e
  | .ok (p1, st1) =>
    match p1.index st1 with
    | .error e => .error e
    | .ok (p2, st2) =>
      match p2.gz_path with
      | none => .error (.runtimeError "BGZipped VCF file not set.")
      | some gz => .ok (gz, st2)

/-- The `ISecOutput` named tuple of `isec.py` (field order intersection,
setdiff1, setdiff2; tuple destructuring follows this order). -/
structure ISecOutput where
  intersection : List Variant
  setdiff1 : List Variant
  setdiff2 : List Variant
deriving DecidableEq

/-- The `VCFIntersection` object of `isec.py`. -/
structure VCFIntersection where
  vcf1 : String
  vcf2 : String
  out_dir : String
  isec_dir : Option String
deriving DecidableEq

/-- `VCFIntersection.__init__` (isec.py lines 41-57): reject `out_dir` or
`isec_dir` that is an existing regular file; no filesystem modification. -/
def VCFIntersection.init (vcf1 vcf2 out_dir : String) (isec_dir : Option String)
    (st : St) : Except Exc (VCFIntersection × St) :=
  if st.fs.isFile out_dir then
    .error (.fileFormatError (out_dir ++ " is not a directory."))
  else
    match isec_dir with
    | some d =>
      if st.fs.isFile d then .error (.fileFormatError (d ++ " is not a directory."))
      else .ok (⟨vcf1, vcf2, out_dir, some d⟩, st)
    | none => .ok (⟨vcf1, vcf2, out_dir, none⟩, st)

/-- The wrapped message of `_isec`'s `except SamtoolsError` branch. -/
def isecWrapMessage : String :=
  "Error in pysam library bcftools.isec function: SamtoolsError"

/-- `VCFIntersection._isec` (isec.py lines 110-132): run `bcftools.isec`,
wrapping `SamtoolsError` as `IntersectError` and `OSError` as
`FileFormatError`, and yield the four intermediate paths `000i.vcf`. -/
def VCFIntersection.isecRun (v : VCFIntersection) (isecDir : String) (st : St) :
    Except Exc (List String × St) :=
  match bcftoolsIsec v.vcf1 v.vcf2 isecDir st with
  | .error .samtoolsError => .error (.intersectError isecWrapMessage)
  | .error (.osError fn) => .error (.fileFormatError ("Error reading file: " ++ fn))
  | .error e => .error e
  | .ok st' =>
    .ok ([joinPath isecDir "0000.vcf", joinPath isecDir "0001.vcf",
          joinPath isecDir "0002.vcf", joinPath isecDir "0003.vcf"], st')

/-- `VCFIntersection._merge_output` (isec.py lines 134-193): clear and recreate
the output directory, copy the two setdiff intermediates, recompress the two
per-file intersection subsets, merge them into `intersection.vcf`
(`bcftools.merge --force-samples`, with no record-count check of any kind),
unlink the `intersection-*` intermediates, and yield the three output paths. -/
def VCFIntersection.mergeOutput (v : VCFIntersection) (isecFiles : List String)
    (st : St) : Except Exc (List String × St) :=
  let st0 :=
    if st.fs.existsPath v.out_dir then
      { st with fs := st.fs.removeTree v.out_dir,
                events := st.events ++ [.remove v.out_dir] }
    else st
  let st1 := { st0 with fs := st0.fs.setEntry v.out_dir .dir,
                        events := st0.events ++ [.mkdir v.out_dir] }
  let setdiff1 := joinPath v.out_dir (strReplace (pathStem v.vcf1) ".vcf" "_setdiff.vcf")
  let setdiff2 := joinPath v.out_dir (strReplace (pathStem v.vcf2) ".vcf" "_setdiff.vcf")
  match copyFile (isecFiles.getD 0 "") setdiff1 st1 with
  | .error e => .error e
  | .ok st2 =>
    match copyFile (isecFiles.getD 1 "") setdiff2 st2 with
    | .error e => .error e
    | .ok st3 =>
      let intersection := joinPath v.out_dir "intersection.vcf"
      let intermediate1 := withSuffix (withStem intersection (pathStem intersection ++ "-1")) ".vcf.gz"
      let intermediate2 := withSuffix (withStem intersection (pathStem intersection ++ "-2")) ".vcf.gz"
      match bcftoolsView (isecFiles.getD 2 "") intermediate1 st3 with
      | .error e => .error e
      | .ok st4 =>
        match bcftoolsView (isecFiles.getD 3 "") intermediate2 st4 with
        | .error e => .error e
        | .ok st5 =>
          match bcftoolsMerge intermediate1 intermediate2 intersection st5 with
          | .error e => .error e
          | .ok st6 =>
            let globVictims :=
              (st6.fs.entries.filter (fun q =>
                pathParent q.1 = v.out_dir ∧
                  strStartsWith (pathName q.1) (pathStem intersection ++ "-") = true)).map
                (fun q => q.1)
            let st7 :=
              { st6 with
                  fs := ⟨st6.fs.entries.filter (fun q =>
                    ¬ (pathParent q.1 = v.out_dir ∧
                        strStartsWith (pathName q.1) (pathStem intersection ++ "-") = true))⟩,
                  events := st6.events ++ globVictims.map Event.remove }
            .ok ([setdiff1, setdiff2, intersection], st7)

/-- `VCFIntersection._gather_variant_results` (isec.py lines 195-207): parse
the three output files, in yield order setdiff1, setdiff2, intersection, and
pack them as `ISecOutput(shared, unique1, unique2)`. -/
def VCFIntersection.gatherVariantResults (v : VCFIntersection)
    (outFiles : List String) (st : St) : Except Exc (ISecOutput × St) :=
  match st.fs.readRecs (outFiles.getD 0 "") with
  | none => .error (.fileNotFoundError (outFiles.getD 0 ""))
  | some unique1 =>
    match st.fs.readRecs (outFiles.getD 1 "") with
    | none => .error (.fileNotFoundError (outFiles.getD 1 ""))
    | some unique2 =>
      match st.fs.readRecs (outFiles.getD 2 "") with
      | none => .error (.fileNotFoundError (outFiles.getD 2 ""))
      | some shared => .ok (⟨shared, unique1, unique2⟩, st)

/-- The common tail of `VCFIntersection.intersect` after the working directory
is chosen: `_isec`, `_merge_output`, `_gather_variant_results` in sequence.
(`_isec` and `_merge_output` are generators in the source; their effects run,
in this order, when `_gather_variant_results` first pulls from them.) -/
def VCFIntersection.intersectFrom (v : VCFIntersection) (isecDir : String)
    (st : St) : Except Exc (ISecOutput × St) :=
  match v.isecRun isecDir st with
  | .error e => .error e
  | .ok (isecFiles, st1) =>
    match v.mergeOutput isecFiles st1 with
    | .error e => .error e
    | .ok (outFiles, st2) => v.gatherVariantResults outFiles st2

/-- The name the model uses for the anonymous `tempfile.TemporaryDirectory`
of `intersect`. -/
def tmpIsecDirName : String := "$tmpisec"

/-- `VCFIntersection.intersect` (isec.py lines 59-108): prompt (with abort on
decline) when the output and/or isec directories already exist, remove an
existing isec directory, create the working directory, then run the pipeline.
When no isec directory was given, a temporary directory is created and — the
`with` block ends before the lazy `_isec` generator ever runs — removed again
before the pipeline's effects happen (bcftools recreates its prefix
directory). -/
def VCFIntersection.intersect (v : VCFIntersection) (st : St) :
    Except Exc (ISecOutput × St) :=
  let outExists := st.fs.isDir v.out_dir
  let isecExists :=
    match v.isec_dir with
    | some d => st.fs.isDir d
    | none => false
  let step0 : Except Exc St :=
    if outExists && isecExists then
      confirmAbort ("Directories " ++ v.out_dir ++ " and " ++ pyStr v.isec_dir ++
        " will be overwritten. Continue?") true st
    else if outExists then
      confirmAbort ("Directory " ++ v.out_dir ++ " will be overwritten. Continue?")
        true st
    else if isecExists then
      confirmAbort ("Directory " ++ pyStr v.isec_dir ++ " will be overwritten. Continue?")
        true st
    else .ok st
  match step0 with
  | .error e => .error e
  | .ok st1 =>
    let st2 :=
      if isecExists then
        { st1 with fs := st1.fs.removeTree (pyStr v.isec_dir),
                   events := st1.events ++ [.remove (pyStr v.isec_dir)] }
      else st1
    match v.isec_dir with
    | some d =>
      let st3 := { st2 with fs := st2.fs.setEntry d .dir,
                            events := st2.events ++ [.mkdir d] }
      v.intersectFrom d st3
    | none =>
      let st3 := { st2 with fs := st2.fs.setEntry tmpIsecDirName .dir,
                            events := st2.events ++ [Event.mkdir tmpIsecDirName] }
      let st4 := { st3 with fs := st3.fs.removeTree tmpIsecDirName,
                            events := st3.events ++ [Event.remove tmpIsecDirName] }
      v.intersectFrom tmpIsecDirName st4

/-- `ErrorHandler.handle` (errors.py lines 85-113): a debug record, then one
`isinstance` branch — `IntersectError`, `FileNotFoundError`, `FileFormatError`,
`OSError` each log at error level; anything else logs at critical level. -/
def ErrorHandler.handle (e : Exc) : List LogRecord × Bool :=
  let dbg : LogRecord := ⟨.debug, "Caught exception:"⟩
  match e with
  | .intersectError m => ([dbg, LogRecord.mk .error m], true)
  | .fileNotFoundError fn => ([dbg, LogRecord.mk .error ("File not found: " ++ fn)], false)
  | .fileFormatError fn =>
    ([dbg, LogRecord.mk .error ("File is unknown/unsupported format: " ++ fn)], false)
  | .osError fn => ([dbg, LogRecord.mk .error ("Error reading file: " ++ fn)], false)
  | _ => ([dbg, LogRecord.mk .critical ("Unhandled exception")], true)

/-- The observable result of the CLI entry point: successful prints, an abort
after an interrupt echo, or an abort after logging through `ErrorHandler`. -/
inductive MainResult where
  | success (lines : List String)
  | abortInterrupt (echoMessage : String) (exitCode : Nat)
  | abortHandled (logs : List LogRecord) (exitCode : Nat)
deriving DecidableEq

def MainResult.exitCode : MainResult → Nat
  | .success _ => 0
  | .abortInterrupt _ c => c
  | .abortHandled _ c => c

def MainResult.logsList : MainResult → List LogRecord
  | .abortHandled logs _ => logs
  | _ => []

/-- The try/except dispatch of `main` (cli.py lines 62-79): success prints the
summary lines; `KeyboardInterrupt` echoes and raises `click.Abort` (exit code
1); every other exception goes through `ErrorHandler.handle` and then raises
`click.Abort` (exit code 1). -/
def mainDispatch (body : Except Exc (List String)) : MainResult :=
  match body with
  | .ok lines => .success lines
  | .error .keyboardInterrupt =>
    .abortInterrupt ("Received termination signal. Exiting now!") 1
  | .error e => .abortHandled (ErrorHandler.handle e).1 1

/-- The three `print` lines of `main` (cli.py lines 71-73), applied to the
destructured `shared, unique1, unique2 = isec.intersect()`.  The source labels
BOTH "Unique to" lines with `file1.name`. -/
def mainSummary (file1 file2 : String) (r : ISecOutput) : List String :=
  [ "Unique to " ++ pathName file1 ++ ": " ++ toString r.setdiff1.length,
    "Unique to " ++ pathName file1 ++ ": " ++ toString r.setdiff2.length,
    "Shared Variants: " ++ toString r.intersection.length ]

/-- The name the model uses for the CLI's `tempfile.TemporaryDirectory`. -/
def tmpDirName : String := "$tmp"

/-- The body of `main` (cli.py lines 62-79) up to the prints: create the
temporary directory, prepare both inputs with it as prefix, build the
`VCFIntersection` (isec dir is `prefix or tmp_dir/"isec"`), intersect, clean up
the temporary directory, and return the summary lines. -/
def mainRun (prefixOpt : Option String) (output file1 file2 : String) (st : St) :
    Except Exc (List String × St) :=
  let st0 := { st with fs := st.fs.setEntry tmpDirName .dir,
                       events := st.events ++ [.mkdir tmpDirName] }
  match (VCFPreparer.init file1 tmpDirName).prepare st0 with
  | .error e => .error e
  | .ok (vcf1, st1) =>
    match (VCFPreparer.init file2 tmpDirName).prepare st1 with
    | .error e => .error e
    | .ok (vcf2, st2) =>
      match VCFIntersection.init vcf1 vcf2 output
          (some (prefixOpt.getD (joinPath tmpDirName "isec"))) st2 with
      | .error e => .error e
      | .ok (v, st3) =>
        match v.intersect st3 with
        | .error e => .error e
        | .ok (r, st4) =>
          let st5 := { st4 with fs := st4.fs.removeTree tmpDirName,
                                events := st4.events ++ [.remove tmpDirName] }
          .ok (mainSummary file1 file2 r, st5)

def resultError {α : Type} : Except Exc (α × St) → Option Exc
  | .ok _ => none
  | .error e => some e

def sampleVariant (n : Int) : Variant :=
  ⟨0, "1", "1", n, n, n, 1, none, none, none, none, none⟩

/-- A state holding two prepared (compressed, indexed) inputs with the given
record contents, ready for intersection. -/
def stIsecRun (a b : List Variant) : St :=
  ⟨⟨[("a.vcf.gz", .file a), ("b.vcf.gz", .file b)]⟩, [], [], []⟩

def vIsecRun : VCFIntersection := ⟨"a.vcf.gz", "b.vcf.gz", "out", some "isec"⟩

set_option maxHeartbeats 4000000 in
/-- The full intersection pipeline on two prepared inputs: the result's
setdiff1 field holds the records private to file1 (from the first
intermediate), setdiff2 the records private to file2 (from the second), and
the intersection field the merge of the two per-file intersection subsets
(third and fourth intermediates). -/
theorem intersectRun_eq (a b : List Variant) :
    resultOutput (vIsecRun.intersect (stIsecRun a b)) =
      some ⟨mergeRecs (recsShared a b) (recsShared b a), recsPrivate a b, recsPrivate b a⟩ := rfl

def isecPathsEx : List String :=
  ["isec/0000.vcf", "isec/0001.vcf", "isec/0002.vcf", "isec/0003.vcf"]

/-- Intermediate files where the two per-file intersection subsets hold two
records and one record respectively — differing counts. -/
def stMergeCountsDiffer : St :=
  ⟨⟨[("isec/0000.vcf", .file [sampleVariant 1]),
     ("isec/0001.vcf", .file [sampleVariant 2]),
     ("isec/0002.vcf", .file [sampleVariant 3, sampleVariant 4]),
     ("isec/0003.vcf", .file [sampleVariant 3])]⟩, [], [], []⟩

/-- Claim C1 counterexample: the merge step run on intermediates whose two
per-file intersection subsets have different record counts (2 vs 1) completes
successfully — no assertion compares the counts and the operation does not
fail, contradicting the claim that it asserts the counts match and fails when
they differ. -/
theorem claim_C1_counterexample :
    resultOutput (vIsecRun.mergeOutput isecPathsEx stMergeCountsDiffer) =
      some ["out/a_setdiff.vcf", "out/b_setdiff.vcf", "out/intersection.vcf"] ∧
    (stMergeCountsDiffer.fs.readRecs "isec/0002.vcf").map List.length = some 2 ∧
    (stMergeCountsDiffer.fs.readRecs "isec/0003.vcf").map List.length = some 1 := by
  exact ⟨rfl, rfl, rfl⟩

def stMergeAny (r0 r1 r2 r3 : List Variant) : St :=
  ⟨⟨[("isec/0000.vcf", .file r0), ("isec/0001.vcf", .file r1),
     ("isec/0002.vcf", .file r2), ("isec/0003.vcf", .file r3)]⟩, [], [], []⟩

set_option maxHeartbeats 4000000 in
/-- Claim C1 (amended): the merge step performs no record-count assertion: for
every contents of the four intermediates — in particular for intersection
subsets of differing record counts — it succeeds, and the combined intersection
file holds the unconditional merge of the third and fourth intermediates. -/
theorem claim_C1 (r0 r1 r2 r3 : List Variant) :
    resultOutput (vIsecRun.mergeOutput isecPathsEx (stMergeAny r0 r1 r2 r3)) =
      some ["out/a_setdiff.vcf", "out/b_setdiff.vcf", "out/intersection.vcf"] ∧
    Option.bind (resultFS (vIsecRun.mergeOutput isecPathsEx (stMergeAny r0 r1 r2 r3)))
        (fun f => f.readRecs "out/intersection.vcf") = some (mergeRecs r2 r3) :=
  ⟨rfl, rfl⟩

/-- An already-compressed input whose tabix index lies in the prefix
directory, and an index file that already exists. -/
def stIndexedInPrefix : St :=
  ⟨⟨[("tmp", .dir), ("tmp/a.vcf.gz", .file [sampleVariant 1]),
     ("tmp/a.vcf.gz.tbi", .file [])]⟩, [], [], []⟩

/-- Claim C2 counterexample: preparing an already-compressed file whose index
lies in the prefix directory re-indexes with force=True and overwrites the
existing index file without showing a single confirmation prompt: the whole
run's event trace is one overwriting write and no prompt event. -/
theorem claim_C2_counterexample :
    resultEvents ((VCFPreparer.init "tmp/a.vcf.gz" "tmp").prepare stIndexedInPrefix) =
      some [Event.write ("tmp/a.vcf.gz.tbi") true] ∧
    Event.isOverwriteEvent (Event.write ("tmp/a.vcf.gz.tbi") true) = true ∧
    Event.isPromptEvent (Event.write ("tmp/a.vcf.gz.tbi") true) = false := by
  exact ⟨rfl, rfl, rfl⟩

/-- Claim C2 (amended): the intersection operation does prompt before
overwriting: whenever the output directory already exists, or the isec
directory was given and already exists (the case whose prompt guards the
`shutil.rmtree` of isec.py 94-95), a confirmation is shown first, and if the
user declines it `intersect` aborts (`click.Abort`) without touching the
filesystem; preparation, in contrast, can overwrite artifacts without
confirmation (see the counterexample). -/
theorem claim_C2 (v : VCFIntersection) (st : St)
    (h1 : st.fs.isDir v.out_dir = true ∨
      ∃ d, v.isec_dir = some d ∧ st.fs.isDir d = true)
    (h2 : st.answers.head? = some false) :
    v.intersect st = .error .abortError := by
  unfold VCFIntersection.intersect
  rcases h1 with h1 | ⟨d, hd, hdd⟩
  · cases hv : v.isec_dir with
    | none => simp [h1, confirmAbort, confirm, h2]
    | some d =>
      cases hdd : st.fs.isDir d <;> simp [h1, hdd, confirmAbort, confirm, h2]
  · cases ho : st.fs.isDir v.out_dir <;>
      simp [hd, hdd, ho, confirmAbort, confirm, h2]

def stOutDirDecline : St :=
  ⟨⟨[("out", .dir), ("a.vcf.gz", .file []), ("b.vcf.gz", .file [])]⟩, [false], [], []⟩

/-- A state where the output directory does not exist but the isec directory
does: only the `elif isec_exists` prompt applies. -/
def stIsecDirDecline : St :=
  ⟨⟨[("isec", .dir), ("a.vcf.gz", .file []), ("b.vcf.gz", .file [])]⟩, [false], [], []⟩

theorem claim_C2_witness :
    (stOutDirDecline.fs.isDir vIsecRun.out_dir = true ∧
     vIsecRun.intersect stOutDirDecline = .error .abortError) ∧
    (stIsecDirDecline.fs.isDir vIsecRun.out_dir = false ∧
     stIsecDirDecline.fs.isDir "isec" = true ∧
     vIsecRun.intersect stIsecDirDecline = .error .abortError) :=
  ⟨⟨by decide, claim_C2 vIsecRun stOutDirDecline (Or.inl (by decide)) (by decide)⟩,
   ⟨by decide, by decide,
    claim_C2 vIsecRun stIsecDirDecline (Or.inr ⟨"isec", rfl, by decide⟩) (by decide)⟩⟩

/-- An already-compressed, already-indexed input (index next to the file, away
from the prefix directory), with the user declining every prompt. -/
def stAlreadyPrepared : St :=
  ⟨⟨[("data/a.vcf.gz", .file [sampleVariant 1]),
     ("data/a.vcf.gz.tbi", .file []), ("tmp", .dir)]⟩, [false], [], []⟩

/-- Claim C3 (code bug, evaluated at the failing input): preparing an
already-compressed, already-indexed file with the lone "Use it?" prompt
declined leaves the existing compressed file and index untouched, but still
invokes the indexer — `tbi_path` was never set, so `index=str(None)` writes a
brand-new index file at the literal path "None". -/
theorem claim_C3 :
    resultEvents ((VCFPreparer.init "data/a.vcf.gz" "tmp").prepare stAlreadyPrepared) =
      some [Event.prompt ("Tabix index found at \x7btbi_path\x7d. Use it?") false,
            Event.write ("None") false] ∧
    (resultFS ((VCFPreparer.init "data/a.vcf.gz" "tmp").prepare stAlreadyPrepared)).map
        (fun f => f.existsPath "None") = some true ∧
    stAlreadyPrepared.fs.existsPath "None" = false ∧
    (resultFS ((VCFPreparer.init "data/a.vcf.gz" "tmp").prepare stAlreadyPrepared)).map
        (fun f => f.lookupEntry "data/a.vcf.gz.tbi") =
      some (stAlreadyPrepared.fs.lookupEntry "data/a.vcf.gz.tbi") ∧
    (resultFS ((VCFPreparer.init "data/a.vcf.gz" "tmp").prepare stAlreadyPrepared)).map
        (fun f => f.lookupEntry "data/a.vcf.gz") =
      some (stAlreadyPrepared.fs.lookupEntry "data/a.vcf.gz") := by
  exact ⟨rfl, rfl, rfl, rfl, rfl⟩

/-- Prepared inputs with toolkit outcomes: the isec call succeeds, the first
view call raises SamtoolsError. -/
def stViewFails : St :=
  ⟨⟨[("a.vcf.gz", .file [sampleVariant 1]), ("b.vcf.gz", .file [sampleVariant 1])]⟩,
   [], [.ok, .samtools], []⟩

/-- Claim C4 counterexample: when the toolkit's view invocation inside the
merge step fails, the intersection operation surfaces the raw toolkit
exception (SamtoolsError), not the wrapped IntersectError — `_merge_output`
has no try/except around its view and merge calls. -/
theorem claim_C4_counterexample :
    resultError (vIsecRun.intersect stViewFails) = some Exc.samtoolsError := by
  exact rfl

/-- Claim C4 (amended): only failures of the isec invocation itself are
wrapped: when `bcftools.isec` raises SamtoolsError the caller sees
IntersectError, but SamtoolsError from the view/merge invocations of the merge
step propagates as the toolkit's own exception type (see the counterexample). -/
theorem claim_C4 (v1 v2 outd d : String) (st : St)
    (h1 : st.fs.isDir outd = false) (h2 : st.fs.isDir d = false)
    (h3 : st.toolkit.head? = some ToolkitOutcome.samtools) :
    (VCFIntersection.mk v1 v2 outd (some d)).intersect st =
      .error (.intersectError isecWrapMessage) := by
  unfold VCFIntersection.intersect VCFIntersection.intersectFrom
    VCFIntersection.isecRun bcftoolsIsec takeOutcome
  simp [h1, h2, h3]

def stIsecFails : St :=
  ⟨⟨[("a.vcf.gz", .file [sampleVariant 1]), ("b.vcf.gz", .file [sampleVariant 1])]⟩,
   [], [.samtools], []⟩

theorem claim_C4_witness :
    (VCFIntersection.mk "a.vcf.gz" "b.vcf.gz" "out" (some "isec")).intersect stIsecFails =
      .error (.intersectError isecWrapMessage) :=
  claim_C4 "a.vcf.gz" "b.vcf.gz" "out" "isec" stIsecFails (by decide) (by decide) (by decide)

/-- The error kinds `ErrorHandler.handle` classifies explicitly (logged at
error level); everything else is unexpected (logged at critical level). -/
def classifiedExc : Exc → Bool
  | .intersectError _ => true
  | .fileNotFoundError _ => true
  | .fileFormatError _ => true
  | .osError _ => true
  | _ => false

/-- The logging obligation of the claim: interrupts need no log; classified
errors must carry an error-level record; unexpected ones a critical-level
record. -/
def logsOkFor (e : Exc) (r : MainResult) : Bool :=
  match e with
  | .keyboardInterrupt => true
  | _ =>
    if classifiedExc e then r.logsList.any (fun lr => lr.level == LogLevel.error)
    else r.logsList.any (fun lr => lr.level == LogLevel.critical)

/-- Claim C5: every exception reaching the CLI entry point leads to an abort
with exit code 1 (non-zero), and — interrupts aside, which echo and abort —
the error is logged, classified kinds at error level and unexpected ones at
critical level. -/
theorem claim_C5 (e : Exc) :
    (mainDispatch (.error e)).exitCode = 1 ∧
    logsOkFor e (mainDispatch (.error e)) = true := by
  cases e <;> exact ⟨rfl, rfl⟩

/-- Claim C6: the intersection invocation returns the three ordered sequences
in the roles intersection / complement-to-file1 / complement-to-file2: the
complement-to-file1 field is the content of the first intermediate (records
private to file1), the complement-to-file2 field that of the second
intermediate, and the intersection field the merged combination of the third
and fourth intermediates. -/
theorem claim_C6 (a b : List Variant) :
    resultOutput (vIsecRun.intersect (stIsecRun a b)) =
      some ⟨mergeRecs (recsShared a b) (recsShared b a), recsPrivate a b, recsPrivate b a⟩ :=
  intersectRun_eq a b

/-- Claim C7: for inputs with fully disjoint variant sets the intersection
sequence is empty and each complement equals its source file's full record
list (so its length is that file's variant count). -/
theorem claim_C7 (a b : List Variant)
    (h1 : ∀ x ∈ a, b.contains x = false) (h2 : ∀ x ∈ b, a.contains x = false) :
    resultOutput (vIsecRun.intersect (stIsecRun a b)) = some ⟨[], a, b⟩ := by
  rw [intersectRun_eq]
  have e1 : recsShared a b = [] := by
    unfold recsShared
    exact List.filter_eq_nil_iff.mpr (fun x hx => by simpa using h1 x hx)
  have e2 : recsShared b a = [] := by
    unfold recsShared
    exact List.filter_eq_nil_iff.mpr (fun x hx => by simpa using h2 x hx)
  have e3 : recsPrivate a b = a := by
    unfold recsPrivate
    exact List.filter_eq_self.mpr (fun x hx => by simpa using h1 x hx)
  have e4 : recsPrivate b a = b := by
    unfold recsPrivate
    exact List.filter_eq_self.mpr (fun x hx => by simpa using h2 x hx)
  rw [e1, e2, e3, e4]
  rfl

def varA : Variant := sampleVariant 1

def varB : Variant := sampleVariant 2

theorem claim_C7_witness :
    resultOutput (vIsecRun.intersect (stIsecRun [varA] [varB])) =
      some ⟨[], [varA], [varB]⟩ :=
  claim_C7 [varA] [varB] (by decide) (by decide)

def stTrivial : St := ⟨⟨[]⟩, [], [], []⟩

/-- Claim C8 counterexample: preparing an input whose suffix is neither ".vcf"
nor ".gz" raises AttributeError, not the claimed RuntimeError("BGZipped VCF
file not set."): `index` is entered with `gz_path` unset and the construction
of its RuntimeError message evaluates `__qualname__` on None, which raises
before `prepare`'s own RuntimeError line can be reached. -/
theorem claim_C8_counterexample :
    resultError ((VCFPreparer.init "data/a.txt" "tmp").prepare stTrivial) =
      some Exc.attributeError := by
  exact rfl

/-- Claim C8 (amended): for every input path whose suffix is neither ".vcf"
nor ".gz", prepare raises AttributeError (from the RuntimeError-message
construction inside index, which accesses `__qualname__` on None) — neither
FileFormatError nor the prepare-level RuntimeError is raised. -/
theorem claim_C8 (path prefixDir : String) (st : St)
    (h1 : pathSuffix path ≠ ".vcf") (h2 : pathSuffix path ≠ ".gz") :
    (VCFPreparer.init path prefixDir).prepare st = .error .attributeError := by
  unfold VCFPreparer.prepare VCFPreparer.index VCFPreparer.init
  simp [h1, h2]

theorem claim_C8_witness :
    (VCFPreparer.init "notes.md" "tmp").prepare stTrivial = .error .attributeError :=
  claim_C8 "notes.md" "tmp" stTrivial (by decide) (by decide)

/-- Claim C9: constructing a VCFIntersection raises FileFormatError whenever
the output directory or the isec directory refers to an existing regular file,
and the constructor never modifies the state (filesystem, oracles, events):
every successful construction returns the state unchanged. -/
theorem claim_C9 (vcf1 vcf2 outd : String) (isecOpt : Option String) (st : St) :
    ((st.fs.isFile outd = true ∨ ∃ d, isecOpt = some d ∧ st.fs.isFile d = true) →
      ∃ fn, VCFIntersection.init vcf1 vcf2 outd isecOpt st =
        .error (.fileFormatError fn)) ∧
    (∀ r st', VCFIntersection.init vcf1 vcf2 outd isecOpt st = .ok (r, st') →
      st' = st) := by
  constructor
  · rintro (h | ⟨d, rfl, hf⟩)
    · exact ⟨outd ++ " is not a directory.", by unfold VCFIntersection.init; simp [h]⟩
    · by_cases ho : st.fs.isFile outd = true
      · exact ⟨outd ++ " is not a directory.", by unfold VCFIntersection.init; simp [ho]⟩
      · refine ⟨d ++ " is not a directory.", ?_⟩
        unfold VCFIntersection.init
        simp only [Bool.not_eq_true] at ho
        simp [ho, hf]
  · intro r st' h
    unfold VCFIntersection.init at h
    by_cases ho : st.fs.isFile outd = true
    · simp [ho] at h
    · simp only [Bool.not_eq_true] at ho
      cases hio : isecOpt with
      | none =>
        rw [hio] at h
        simp [ho] at h
        exact h.2.symm
      | some d =>
        rw [hio] at h
        by_cases hd : st.fs.isFile d = true
        · simp [ho, hd] at h
        · simp only [Bool.not_eq_true] at hd
          simp [ho, hd] at h
          exact h.2.symm

def stOutIsFile : St := ⟨⟨[("out.txt", .file [])]⟩, [], [], []⟩

theorem claim_C9_witness :
    (∃ fn, VCFIntersection.init "a.vcf.gz" "b.vcf.gz" "out.txt" none stOutIsFile =
      .error (.fileFormatError fn)) ∧
    (∀ r st', VCFIntersection.init "a.vcf.gz" "b.vcf.gz" "out" none stTrivial =
      .ok (r, st') → st' = stTrivial) :=
  ⟨(claim_C9 "a.vcf.gz" "b.vcf.gz" "out.txt" none stOutIsFile).1 (Or.inl (by decide)),
   (claim_C9 "a.vcf.gz" "b.vcf.gz" "out" none stTrivial).2⟩

/-- Two readable, already-compressed, already-indexed CLI inputs; both
use-existing-index prompts are answered yes. -/
def stMainC10 (a b : List Variant) : St :=
  ⟨⟨[("data/f1.vcf.gz", .file a), ("data/f1.vcf.gz.tbi", .file []),
     ("data/f2.vcf.gz", .file b), ("data/f2.vcf.gz.tbi", .file [])]⟩,
   [true, true], [], []⟩

set_option maxHeartbeats 8000000 in
/-- Claim C10: on a successful CLI run the three printed summary lines report,
in order, the length of the unique-to-file1 sequence, the length of the
unique-to-file2 sequence, and the length of the shared sequence — and both
"Unique to" lines carry file1's name ("f1.vcf.gz" here; the second line never
shows file2's name). -/
theorem claim_C10 (a b : List Variant) :
    resultOutput (mainRun none "output" "data/f1.vcf.gz" "data/f2.vcf.gz" (stMainC10 a b)) =
      some [ "Unique to f1.vcf.gz: " ++ toString (recsPrivate a b).length,
             "Unique to f1.vcf.gz: " ++ toString (recsPrivate b a).length,
             "Shared Variants: " ++ toString (mergeRecs (recsShared a b) (recsShared b a)).length ] := rfl
